import Mathlib

/-!
Shallow embedding of the WrestlePro backend's authentication subsystem
(src/main.py, src/schemas.py): password hashing, JWT issuance and
verification, the credential store accessor, and the signup / login / me
endpoints.  External collaborators (passlib's bcrypt CryptContext, the
python-jose JWT library, the MongoDB document store, os.getenv) are
modelled by executable Lean functions following their documented
contracts; everything else is translated directly from the source.
-/

namespace WrestlePro

/-- Model of the process environment for `os.getenv`: an association list
from variable names to values.  `os.getenv(key, default)` returns the
stored value when the key is present and the default otherwise. -/
def osGetenv (env : List (String × String)) (key dflt : String) : String :=
  (env.lookup key).getD dflt

/-- Source line 29: `JWT_SECRET = os.getenv("JWT_SECRET", "dev-secret-change-me")`.
The signing secret read once at startup, with a hard-coded fallback. -/
def JWT_SECRET (env : List (String × String)) : String :=
  osGetenv env "JWT_SECRET" "dev-secret-change-me"

/-- Model of bcrypt's key derivation as an abstract deterministic function of
the salt and the plaintext.  The development relies only on it being a
function (same salt and plaintext give the same digest); no cryptographic
property is assumed or claimed. -/
def bcryptKdf (salt : Nat) (p : String) : String :=
  toString salt ++ ":" ++ p

/-- Model of a password-hash string as passlib sees it: either a well-formed
bcrypt hash (which embeds its salt and the digest) or any other string,
which passlib fails to identify as a hash of a configured scheme. -/
inductive HashString where
  | bcrypt (salt : Nat) (digest : String)
  | malformed (s : String)
  deriving Repr, DecidableEq

/-- Message of passlib's `UnknownHashError` (a `ValueError`), raised by
`CryptContext.verify` when the hash string matches no configured scheme. -/
def passlibUnknownHashMessage : String := "hash could not be identified"

/-- Source lines 110-111: `get_password_hash(password)` =
`pwd_context.hash(password)`.  passlib's bcrypt hash draws a fresh random
salt per call; the salt is made an explicit argument so that every outcome
of the internal randomness is covered. -/
def get_password_hash (salt : Nat) (password : String) : HashString :=
  .bcrypt salt (bcryptKdf salt password)

/-- Source lines 106-107: `verify_password(plain, hashed)` =
`pwd_context.verify(plain, hashed)`.  Per passlib's contract, a
well-formed bcrypt hash is verified by re-deriving the digest with the
embedded salt and comparing, while an unidentifiable hash string makes
`verify` raise `UnknownHashError` — modelled as `Except.error`. -/
def verify_password (plain_password : String) (hashed_password : HashString) :
    Except String Bool :=
  match hashed_password with
  | .bcrypt salt digest => .ok (bcryptKdf salt plain_password == digest)
  | .malformed _ => .error passlibUnknownHashMessage

/-- Claims carried by the tokens this program issues: subject (email),
role, and the expiry timestamp (seconds). -/
structure JwtPayload where
  sub : Option String
  role : Option String
  exp : Nat
  deriving Repr, DecidableEq

/-- Model of a JWT as the python-jose library handles it: a well-formed
token determined by its payload and the secret it was signed with, or a
malformed string. -/
inductive Token where
  | signed (payload : JwtPayload) (secret : String)
  | malformed (s : String)
  deriving Repr, DecidableEq

/-- Model of `jose.jwt.encode(payload, secret, algorithm=HS256)`. -/
def jwtEncode (payload : JwtPayload) (secret : String) : Token :=
  .signed payload secret

/-- Model of `jose.jwt.decode(token, secret, algorithms=[HS256])`: raises a
`JWTError` (modelled as `Except.error`) when the token is malformed, the
signature does not verify against `secret`, or the `exp` claim lies in the
past; otherwise returns the payload. -/
def jwtDecode (token : Token) (secret : String) (now : Nat) :
    Except String JwtPayload :=
  match token with
  | .malformed _ => .error "Error decoding token."
  | .signed p s =>
    if s != secret then .error "Signature verification failed."
    else if p.exp < now then .error "Signature has expired."
    else .ok p

/-- Source lines 114-118: `create_access_token(data, expires_minutes)` with
`data = ("sub": sub, "role": role)`; sets `exp` to now plus the TTL and signs
with the process-wide secret. -/
def create_access_token (secret : String) (now : Nat) (sub role : String)
    (expires_minutes : Nat) : Token :=
  jwtEncode { sub := some sub, role := some role, exp := now + expires_minutes * 60 } secret

/-- Value stored in one field of a MongoDB document of the `authuser`
collection. -/
inductive DocValue where
  | vstr (s : String)
  | vbool (b : Bool)
  | vhash (h : HashString)
  | vnull
  deriving Repr, DecidableEq

/-- A document of the `authuser` collection.  MongoDB enforces no schema, so
every field other than `_id` and `email` may be absent (`none`); documents
are looked up by `email`, so documents without one are unreachable here.
A field stored as null and an absent field are conflated; no claim below
distinguishes them. -/
structure UserDoc where
  _id : String
  name : Option String := none
  email : String
  role : Option String := none
  hashed_password : Option HashString := none
  is_active : Option Bool := none
  deriving Repr, DecidableEq

/-- One optional entry of a document's key-value listing. -/
def optField (key : String) (v : Option DocValue) : List (String × DocValue) :=
  match v with
  | none => []
  | some x => [(key, x)]

/-- The key-value pairs of a stored document, as Python's `dict.items()`
yields them when the document is serialized into a response. -/
def UserDoc.items (u : UserDoc) : List (String × DocValue) :=
  [("_id", .vstr u._id)]
    ++ optField "name" (u.name.map .vstr)
    ++ [("email", .vstr u.email)]
    ++ optField "role" (u.role.map .vstr)
    ++ optField "hashed_password" (u.hashed_password.map .vhash)
    ++ optField "is_active" (u.is_active.map .vbool)

/-- Source lines 121-124: `get_user_by_email(email)` =
`db["authuser"].find_one(("email": email))`.  The store is modelled as the
list of documents of the `authuser` collection in natural order;
`find_one` returns the first match. -/
def get_user_by_email (store : List UserDoc) (email : String) : Option UserDoc :=
  store.find? (fun u => u.email == email)

/-- An HTTPException as raised by the routes: status code, detail message,
and extra response headers. -/
structure HTTPException where
  status_code : Nat
  detail : String
  headers : List (String × String) := []
  deriving Repr, DecidableEq

/-- Source lines 128-132: the single exception object used for every
credential-shaped failure of `get_current_user`. -/
def credentials_exception : HTTPException :=
  { status_code := 401, detail := "Could not validate credentials",
    headers := [("WWW-Authenticate", "Bearer")] }

/-- Source line 144: the exception raised for an inactive user. -/
def inactive_exception : HTTPException :=
  { status_code := 403, detail := "User is inactive" }

/-- Source line 164: the exception raised on duplicate signup email. -/
def conflict_exception : HTTPException :=
  { status_code := 400, detail := "Email already registered" }

/-- Source lines 186 and 188: the single generic login-failure exception. -/
def invalid_login_exception : HTTPException :=
  { status_code := 400, detail := "Invalid email or password" }

/-- Source lines 127-146: `get_current_user(token)`.  Decodes the bearer
token, extracts the subject, looks the user up by email, rejects inactive
users, and returns the stored document (its `_id` stringified — the
identity map here, since ids are modelled as strings). -/
def get_current_user (store : List UserDoc) (secret : String) (now : Nat)
    (token : Token) : Except HTTPException UserDoc :=
  match jwtDecode token secret now with
  | .error _ => .error credentials_exception
  | .ok payload =>
    match payload.sub with
    | none => .error credentials_exception
    | some email =>
      match get_user_by_email store email with
      | none => .error credentials_exception
      | some user =>
        if !(user.is_active.getD true) then .error inactive_exception
        else .ok user

/-- schemas.py lines 51-56: the `AuthUser` pydantic model. -/
structure AuthUser where
  name : Option String := none
  email : String
  role : String := "athlete"
  hashed_password : HashString
  is_active : Bool := true
  deriving Repr, DecidableEq

/-- schemas.py lines 58-62: the `SignupRequest` pydantic model; `role` is an
unconstrained optional string defaulting to "athlete". -/
structure SignupRequest where
  name : Option String := none
  email : String
  password : String
  role : Option String := some "athlete"
  deriving Repr, DecidableEq

/-- schemas.py lines 64-66: the `LoginRequest` pydantic model. -/
structure LoginRequest where
  email : String
  password : String
  deriving Repr, DecidableEq

/-- schemas.py lines 68-71: the `TokenResponse` pydantic model; `user` is a
plain dict, serialized without filtering. -/
structure TokenResponse where
  access_token : Token
  token_type : String := "bearer"
  user : List (String × DocValue)
  deriving Repr, DecidableEq

/-- Source line 170: `payload.role or "athlete"` — Python `or` replaces both
`None` and the empty string by the default. -/
def effectiveRole : Option String → String
  | none => "athlete"
  | some r => if r == "" then "athlete" else r

/-- `AuthUser.model_dump()`: every declared field, in declaration order,
with `None` rendered as null. -/
def AuthUser.model_dump (u : AuthUser) : List (String × DocValue) :=
  [("name", match u.name with | none => .vnull | some n => .vstr n),
   ("email", .vstr u.email),
   ("role", .vstr u.role),
   ("hashed_password", .vhash u.hashed_password),
   ("is_active", .vbool u.is_active)]

/-- The document that `create_document("authuser", user_model)` inserts: the
model's fields plus the generated `_id`. -/
def insertedDoc (newId : String) (u : AuthUser) : UserDoc :=
  { _id := newId, name := u.name, email := u.email, role := some u.role,
    hashed_password := some u.hashed_password, is_active := some u.is_active }

/-- Source lines 159-179: the signup route.  Checks for an existing user by
email, hashes the password, inserts the new document, issues a token, and
answers with the dumped user minus its `hashed_password` entry plus the
generated `_id`.  Returns the resulting store alongside the HTTP outcome;
`newId` is the id the store generates and `salt` the hasher's fresh salt. -/
def signup (store : List UserDoc) (secret : String) (now expMin : Nat)
    (newId : String) (salt : Nat) (payload : SignupRequest) :
    List UserDoc × Except HTTPException TokenResponse :=
  match get_user_by_email store payload.email with
  | some _ => (store, .error conflict_exception)
  | none =>
    let hashed := get_password_hash salt payload.password
    let user_model : AuthUser :=
      { name := payload.name, email := payload.email,
        role := effectiveRole payload.role, hashed_password := hashed,
        is_active := true }
    let store1 := store ++ [insertedDoc newId user_model]
    let token := create_access_token secret now payload.email user_model.role expMin
    let user_dict :=
      (user_model.model_dump ++ [("_id", DocValue.vstr newId)]).filter
        (fun kv => kv.1 != "hashed_password")
    (store1, .ok { access_token := token, token_type := "bearer", user := user_dict })

/-- Outcome of a route that can also end in an uncaught Python exception
propagating: either an HTTPException or an internal fault. -/
inductive AppError where
  | http (e : HTTPException)
  | internalFault (msg : String)
  deriving Repr, DecidableEq

/-- Source lines 182-192: the login route.  Looks the user up by email,
verifies the password against `user.get("hashed_password", "")` (an absent
hash yields the empty string, which passlib fails to identify — an
uncaught error), issues a token with the stored role, and answers with the
stored document minus its `hashed_password` entry. -/
def login (store : List UserDoc) (secret : String) (now expMin : Nat)
    (payload : LoginRequest) : Except AppError TokenResponse :=
  match get_user_by_email store payload.email with
  | none => .error (.http invalid_login_exception)
  | some user =>
    match verify_password payload.password (user.hashed_password.getD (.malformed "")) with
    | .error msg => .error (.internalFault msg)
    | .ok false => .error (.http invalid_login_exception)
    | .ok true =>
      let token := create_access_token secret now user.email (user.role.getD "athlete") expMin
      let user_slim := user.items.filter (fun kv => kv.1 != "hashed_password")
      .ok { access_token := token, token_type := "bearer", user := user_slim }

/-- Source lines 195-197: the me route returns the resolved user document
verbatim (its full key-value listing is serialized — no response model
filters it). -/
def me (store : List UserDoc) (secret : String) (now : Nat) (token : Token) :
    Except HTTPException (List (String × DocValue)) :=
  (get_current_user store secret now token).map UserDoc.items

/-- Concrete stored user for exercising the me endpoint. -/
def c1User : UserDoc :=
  { _id := "u1", name := some "Alice", email := "alice@x.com", role := some "athlete",
    hashed_password := some (get_password_hash 7 "secret123"), is_active := some true }

/-- C1: evaluated at a stored active user and a freshly issued valid token,
the me endpoint answers with the user's full document, whose key-value
listing contains the `hashed_password` entry — the password hash is
transmitted in the response, contradicting the claim that it is excluded
from every response of the three auth endpoints. -/
theorem c1_me_leaks_hashed_password :
    me [c1User] "sec" 10 (create_access_token "sec" 0 "alice@x.com" "athlete" 60)
      = .ok c1User.items
    ∧ ("hashed_password", DocValue.vhash (get_password_hash 7 "secret123")) ∈ c1User.items :=
  ⟨rfl, by decide⟩

/-- C2 counterexample: with no `JWT_SECRET` entry in the environment, the
program's signing secret is exactly the publicly-known default
`dev-secret-change-me` — the silent fallback the claim denies; no startup
fault exists in the code. -/
theorem c2_counterexample :
    JWT_SECRET [] = "dev-secret-change-me" := rfl

/-- C2 (amended): for every environment lacking a `JWT_SECRET` entry, the
program silently falls back to the publicly-known default secret
`dev-secret-change-me`; no configuration fault is raised at startup. -/
theorem c2_default_secret_fallback (env : List (String × String))
    (h : env.lookup "JWT_SECRET" = none) :
    JWT_SECRET env = "dev-secret-change-me" := by
  simp [JWT_SECRET, osGetenv, h]

/-- C2 witness: the empty environment lacks `JWT_SECRET`, and the secret is
the default. -/
theorem c2_witness :
    ([] : List (String × String)).lookup "JWT_SECRET" = none
    ∧ JWT_SECRET [] = "dev-secret-change-me" :=
  ⟨rfl, c2_default_secret_fallback [] rfl⟩

/-- C3 counterexample: on the malformed hash string "notahash", verify does
not return false — it raises passlib's `UnknownHashError` (modelled as an
error result), contradicting the claim that verify returns false and never
raises. -/
theorem c3_counterexample :
    verify_password "pw" (.malformed "notahash") = .error passlibUnknownHashMessage
    ∧ verify_password "pw" (.malformed "notahash") ≠ .ok false :=
  ⟨rfl, fun h => Except.noConfusion h⟩

/-- C3 (amended): for every plaintext and every malformed (non-hash-shaped)
hash string, verify raises passlib's `UnknownHashError` — the error
propagates to the caller; it does not return false. -/
theorem c3_malformed_hash_raises (p s : String) :
    verify_password p (.malformed s) = .error passlibUnknownHashMessage := rfl

/-- C4 counterexample: a signup request carrying role "hacker" creates a user
record whose role is "hacker", which lies outside the enumerated set
(organizer, coach, athlete, admin) — no validation constrains the role. -/
theorem c4_counterexample :
    (signup [] "sec" 0 60 "id1" 3
        { name := some "Eve", email := "eve@x.com", password := "pw",
          role := some "hacker" }).1
      = [insertedDoc "id1"
          { name := some "Eve", email := "eve@x.com", role := "hacker",
            hashed_password := get_password_hash 3 "pw", is_active := true }]
    ∧ "hacker" ∉ ["organizer", "coach", "athlete", "admin"] :=
  ⟨rfl, by decide⟩

/-- C4 (amended): every User record created by signup has role equal to the
client-supplied role string verbatim when it is present and non-empty, and
"athlete" when it is absent or empty; the role is an arbitrary string, not
confined to the enumerated set. -/
theorem c4_created_role_is_client_role (store : List UserDoc) (secret : String)
    (now expMin : Nat) (newId : String) (salt : Nat) (payload : SignupRequest)
    (h : get_user_by_email store payload.email = none) :
    ((signup store secret now expMin newId salt payload).1.map (fun u => u.role))
      = store.map (fun u => u.role) ++ [some (effectiveRole payload.role)] := by
  simp [signup, h, insertedDoc]

/-- C4 witness: signing up on an empty store with role "hacker" yields a
store whose single record has exactly that role. -/
theorem c4_witness :
    get_user_by_email [] "eve@x.com" = none
    ∧ ((signup [] "sec" 0 60 "id1" 3
          { name := some "Eve", email := "eve@x.com", password := "pw",
            role := some "hacker" }).1.map (fun u => u.role))
        = ([] : List UserDoc).map (fun u => u.role) ++ [some (effectiveRole (some "hacker"))] :=
  ⟨rfl, c4_created_role_is_client_role [] "sec" 0 60 "id1" 3 _ rfl⟩

/-- Concrete stored user for the duplicate-signup scenario. -/
def c5User : UserDoc :=
  { _id := "u1", name := some "Alice", email := "alice@x.com", role := some "athlete",
    hashed_password := some (get_password_hash 1 "pw"), is_active := some true }

/-- C5 counterexample: signing up an already-registered email fails with
detail "Email already registered" (capitalized), not the claimed message
"email already registered"; the store is unchanged. -/
theorem c5_counterexample :
    (signup [c5User] "sec" 0 60 "id2" 2
        { name := none, email := "alice@x.com", password := "pw2", role := none })
      = ([c5User], .error conflict_exception)
    ∧ conflict_exception.detail ≠ "email already registered" :=
  ⟨rfl, by decide⟩

/-- C5 (amended): for every signup request whose email is already present in
the store, signup fails with the Conflict error — HTTP status 400, detail
"Email already registered" — and the store is returned unchanged: no
record is created or mutated. -/
theorem c5_duplicate_email_conflict (store : List UserDoc) (secret : String)
    (now expMin : Nat) (newId : String) (salt : Nat) (payload : SignupRequest)
    (u : UserDoc) (h : get_user_by_email store payload.email = some u) :
    signup store secret now expMin newId salt payload
      = (store, .error conflict_exception) := by
  simp [signup, h]

/-- C5 witness: the duplicate-signup scenario instantiated on a one-user
store. -/
theorem c5_witness :
    signup [c5User] "sec" 0 60 "id2" 2
        { name := none, email := "alice@x.com", password := "pw2", role := none }
      = ([c5User], .error conflict_exception) :=
  c5_duplicate_email_conflict [c5User] "sec" 0 60 "id2" 2 _ c5User rfl

/-- C6: for every bearer token, the resolver fails with the one credentials
exception (401, "Could not validate credentials") whenever decoding fails
(malformed token, bad signature, or expiry), whenever the payload lacks a
subject, and whenever the subject matches no stored user — all these
failures are the same error value; the distinct inactive exception (403,
"User is inactive") differs from it and occurs exactly when decoding
succeeds, the subject resolves to a stored user, and that user's
`is_active` field is explicitly false. -/
theorem c6_resolver_error_taxonomy (store : List UserDoc) (secret : String)
    (now : Nat) (token : Token) :
    ((∃ msg, jwtDecode token secret now = .error msg) →
        get_current_user store secret now token = .error credentials_exception)
    ∧ (∀ p, jwtDecode token secret now = .ok p → p.sub = none →
        get_current_user store secret now token = .error credentials_exception)
    ∧ (∀ p email, jwtDecode token secret now = .ok p → p.sub = some email →
        get_user_by_email store email = none →
        get_current_user store secret now token = .error credentials_exception)
    ∧ credentials_exception ≠ inactive_exception
    ∧ (get_current_user store secret now token = .error inactive_exception ↔
        ∃ p email u, jwtDecode token secret now = .ok p ∧ p.sub = some email ∧
          get_user_by_email store email = some u ∧ u.is_active = some false) := by
  refine ⟨?_, ?_, ?_, by decide, ?_, ?_⟩
  · rintro ⟨msg, hmsg⟩
    simp [get_current_user, hmsg]
  · intro p hp hsub
    simp [get_current_user, hp, hsub]
  · intro p email hp hsub hfind
    simp [get_current_user, hp, hsub, hfind]
  · intro h
    rcases hdec : jwtDecode token secret now with msg | p
    · simp [get_current_user, hdec, credentials_exception, inactive_exception] at h
    · rcases hsub : p.sub with _ | email
      · simp [get_current_user, hdec, hsub, credentials_exception, inactive_exception] at h
      · rcases hfind : get_user_by_email store email with _ | u
        · simp [get_current_user, hdec, hsub, hfind,
            credentials_exception, inactive_exception] at h
        · refine ⟨p, email, u, rfl, hsub, hfind, ?_⟩
          rcases ha : u.is_active with _ | b
          · simp [get_current_user, hdec, hsub, hfind, ha] at h
          · cases b
            · rfl
            · simp [get_current_user, hdec, hsub, hfind, ha] at h
  · rintro ⟨p, email, u, hdec, hsub, hfind, hact⟩
    simp [get_current_user, hdec, hsub, hfind, hact]

/-- C6 witness: a malformed token fails with the credentials exception. -/
theorem c6_witness :
    get_current_user [] "sec" 0 (Token.malformed "garbage") = .error credentials_exception :=
  (c6_resolver_error_taxonomy [] "sec" 0 (.malformed "garbage")).1
    ⟨"Error decoding token.", rfl⟩

/-- C7: for every login request, the failure when no user exists for the
email and the failure when the user exists but the password does not
verify are the very same error value — HTTP 400 with the single generic
detail "Invalid email or password". -/
theorem c7_login_failures_identical (store : List UserDoc) (secret : String)
    (now expMin : Nat) (payload : LoginRequest) :
    (get_user_by_email store payload.email = none →
        login store secret now expMin payload = .error (.http invalid_login_exception))
    ∧ (∀ u, get_user_by_email store payload.email = some u →
        verify_password payload.password (u.hashed_password.getD (.malformed "")) = .ok false →
        login store secret now expMin payload = .error (.http invalid_login_exception)) := by
  constructor
  · intro h
    simp [login, h]
  · intro u hu hv
    simp [login, hu, hv]

/-- Concrete stored user for the login-failure scenarios. -/
def c7User : UserDoc :=
  { _id := "u1", email := "bob@x.com", role := some "athlete",
    hashed_password := some (get_password_hash 5 "right-pw"), is_active := some true }

/-- C7 witness: login with an unknown email and login with a known email but
a wrong password produce the identical error. -/
theorem c7_witness :
    login [] "sec" 0 60 { email := "bob@x.com", password := "pw" }
        = .error (.http invalid_login_exception)
    ∧ login [c7User] "sec" 0 60 { email := "bob@x.com", password := "wrong-pw" }
        = .error (.http invalid_login_exception) :=
  ⟨(c7_login_failures_identical [] "sec" 0 60 _).1 rfl,
   (c7_login_failures_identical [c7User] "sec" 0 60 _).2 c7User rfl rfl⟩

/-- C8: for every email and role carried by a stored user record that is
treated as active, issuing a token embedding that email and role and
resolving it with the same secret at or before the expiry time succeeds
and returns that record, which carries the embedded email and role. -/
theorem c8_issue_then_resolve (store : List UserDoc) (secret : String)
    (t1 t2 expMin : Nat) (email role : String) (u : UserDoc)
    (hu : get_user_by_email store email = some u)
    (hrole : u.role = some role)
    (hactive : u.is_active.getD true = true)
    (hexp : t2 ≤ t1 + expMin * 60) :
    get_current_user store secret t2 (create_access_token secret t1 email role expMin)
        = .ok u
    ∧ u.email = email ∧ u.role = some role := by
  refine ⟨?_, ?_, hrole⟩
  · have hdec : jwtDecode (create_access_token secret t1 email role expMin) secret t2
        = .ok { sub := some email, role := some role, exp := t1 + expMin * 60 } := by
      simp [jwtDecode, create_access_token, jwtEncode, Nat.not_lt.mpr hexp]
    simp [get_current_user, hdec, hu, hactive]
  · have hu1 : store.find? (fun v => v.email == email) = some u := hu
    have h1 : (fun v : UserDoc => v.email == email) u = true :=
      List.find?_some (p := fun v : UserDoc => v.email == email) (a := u) hu1
    exact eq_of_beq h1

/-- Concrete stored user for the issue-then-resolve round trip. -/
def c8User : UserDoc :=
  { _id := "u2", email := "carol@x.com", role := some "coach",
    hashed_password := some (get_password_hash 9 "pw"), is_active := some true }

/-- C8 witness: a token issued at time 0 with a 60-minute TTL for a stored
active coach resolves at time 100 to that same record. -/
theorem c8_witness :
    get_current_user [c8User] "sec" 100
        (create_access_token "sec" 0 "carol@x.com" "coach" 60) = .ok c8User
    ∧ c8User.email = "carol@x.com" ∧ c8User.role = some "coach" :=
  c8_issue_then_resolve [c8User] "sec" 0 100 60 "carol@x.com" "coach" c8User
    rfl rfl rfl (by decide)

/-- C9: verifying a password against the hash produced from it succeeds, for
every outcome of the salt randomness. -/
theorem c9_verify_of_hash (salt : Nat) (p : String) :
    verify_password p (get_password_hash salt p) = .ok true := by
  simp [verify_password, get_password_hash]

/-- C10: for every token that decodes successfully and whose subject resolves
to a stored user record lacking the `is_active` field entirely, the
resolver treats the record as active and returns it successfully. -/
theorem c10_missing_is_active_treated_active (store : List UserDoc) (secret : String)
    (now : Nat) (token : Token) (p : JwtPayload) (email : String) (u : UserDoc)
    (hdec : jwtDecode token secret now = .ok p)
    (hsub : p.sub = some email)
    (hu : get_user_by_email store email = some u)
    (hact : u.is_active = none) :
    get_current_user store secret now token = .ok u := by
  simp [get_current_user, hdec, hsub, hu, hact]

/-- Concrete stored user lacking the `is_active` field. -/
def c10User : UserDoc :=
  { _id := "u3", email := "dan@x.com", role := some "athlete",
    hashed_password := some (get_password_hash 4 "pw") }

/-- C10 witness: a valid token whose subject's stored record lacks
`is_active` resolves successfully. -/
theorem c10_witness :
    get_current_user [c10User] "sec" 5 (create_access_token "sec" 0 "dan@x.com" "athlete" 60)
        = .ok c10User :=
  c10_missing_is_active_treated_active [c10User] "sec" 5
    (create_access_token "sec" 0 "dan@x.com" "athlete" 60)
    { sub := some "dan@x.com", role := some "athlete", exp := 3600 } "dan@x.com" c10User
    rfl rfl rfl rfl

end WrestlePro
